import Mathlib

/-!
Shallow embedding of `bot.py` from the repository
`reckel-jm/telegram-biblereadingschedulebot`, a Telegram bot that reminds
users to read a daily Bible passage.

The embedding models:
* the Python primitives the code relies on (`str.split`, `str.strip`,
  `int(...)`, `datetime.strptime` with the fixed `"%m-%d-%y"` format,
  `datetime.time(hour, minute)`) as executable Lean functions;
* the schedule lookup `get_todays_bible_reading`;
* the conversation handlers `activate_bible_study_reminder`,
  `specific_set_time`, `set_language`;
* the job-queue operations (`run_daily`, `get_jobs_by_name`,
  `schedule_removal`) used by `delete_reminder` and `send_all_reminders`;
* the notification composer `send_reminder` (message text and poll).

Python exceptions that escape a handler are modelled with explicit error
values; exceptions caught by the code are modelled by the corresponding
`Option`/branching structure, exactly where the `try`/`except` blocks sit
in the source.
-/

set_option maxRecDepth 16000

namespace BibleBot

/-- Errors a handler can raise (uncaught Python exceptions / failed IO). -/
inductive PyError where
  | indexError
  | ioError
  deriving DecidableEq, Repr

/-! ### Python string primitives -/

/-- Model of Python `str.split(sep)` for a single-character separator,
acting on the character list: `"".split(c)` is `[""]`, separators at the
ends produce empty components. -/
def pysplit (sep : Char) : List Char → List (List Char)
  | [] => [[]]
  | c :: rest =>
    match pysplit sep rest with
    | [] => [[]]
    | h :: t => if c = sep then [] :: h :: t else (c :: h) :: t

/-- Model of Python `str.split(sep)` on strings. -/
def python_split (sep : Char) (s : String) : List String :=
  (pysplit sep s.data).map (fun l => String.mk l)

/-- Model of Python `str.strip()`: remove leading and trailing whitespace. -/
def pystrip (s : String) : String :=
  String.mk (((s.data.dropWhile Char.isWhitespace).reverse.dropWhile
    Char.isWhitespace).reverse)

/-- Numeric value of a list of decimal digits. -/
def digitsToNat (l : List Char) : Nat :=
  l.foldl (fun acc c => acc * 10 + (c.toNat - 48)) 0

/-- Checks the tail of a Python integer literal digit part: decimal digits
with single underscores allowed only between digits. -/
def digitTail : List Char → Bool
  | [] => true
  | '_' :: [] => false
  | '_' :: '_' :: _ => false
  | '_' :: c :: rest => c.isDigit && digitTail (c :: rest)
  | c :: rest => c.isDigit && digitTail rest

/-- A valid Python integer digit part: leading digit, then `digitTail`. -/
def digitPartOk : List Char → Bool
  | [] => false
  | c :: rest => c.isDigit && digitTail rest

/-- Model of Python `int(str)`: strip whitespace, optional sign, decimal
digits with optional single underscores between digits; `none` models the
`ValueError` raised on any other input. -/
def python_int (s : String) : Option Int :=
  match (pystrip s).data with
  | '+' :: rest =>
    if digitPartOk rest then some (Int.ofNat (digitsToNat (rest.filter (· ≠ '_'))))
    else none
  | '-' :: rest =>
    if digitPartOk rest then some (-(Int.ofNat (digitsToNat (rest.filter (· ≠ '_')))))
    else none
  | t =>
    if digitPartOk t then some (Int.ofNat (digitsToNat (t.filter (· ≠ '_'))))
    else none

/-! ### Dates and `datetime.strptime(date_str, "%m-%d-%y")` -/

/-- A Python `datetime.date` value (day granularity). -/
structure Date where
  year : Nat
  month : Nat
  day : Nat
  deriving DecidableEq, Repr

/-- Gregorian leap-year rule, as used by `datetime`. -/
def isLeap (y : Nat) : Bool :=
  y % 4 = 0 && (y % 100 ≠ 0 || y % 400 = 0)

/-- Number of days in a month, as validated by `datetime.date`. -/
def daysInMonth (y m : Nat) : Nat :=
  if m = 2 then (if isLeap y then 29 else 28)
  else if m = 4 ∨ m = 6 ∨ m = 9 ∨ m = 11 then 30
  else 31

/-- A one- or two-digit decimal field, as matched by the `%m`/`%d`/`%y`
directives of `strptime`. -/
def twoDigitField (l : List Char) : Option Nat :=
  if 1 ≤ l.length ∧ l.length ≤ 2 ∧ l.all Char.isDigit then some (digitsToNat l)
  else none

/-- Model of `datetime.datetime.strptime(s, "%m-%d-%y").date()`:
three dash-separated one- or two-digit fields; month `1..12`; two-digit
year mapped to `2000..2068` / `1969..1999`; day validated against the
month's length. `none` models the `ValueError` on any other input. -/
def strptime_mdy (s : String) : Option Date :=
  match pysplit '-' s.data with
  | [ms, ds, ys] =>
    match twoDigitField ms, twoDigitField ds, twoDigitField ys with
    | some m, some d, some y2 =>
      if 1 ≤ m ∧ m ≤ 12 ∧ 1 ≤ d then
        let y := if y2 ≤ 68 then 2000 + y2 else 1900 + y2
        if d ≤ daysInMonth y m then some ⟨y, m, d⟩ else none
      else none
    | _, _, _ => none
  | _ => none

/-! ### Schedule repository (`get_todays_bible_reading`) -/

/-- Represents a Bible reading schedule entry (dataclass
`BibleReadingScheduleEntry` in `bot.py`). -/
structure BibleReadingScheduleEntry where
  date : Date
  ot_reading : String
  nt_reading : String
  deriving DecidableEq, Repr

/-- Model of the row-scanning loop of `get_todays_bible_reading`: the CSV
rows are lists of fields.  For each row the code reads `row[0]`, `row[2]`
and `row[1]` *outside* the `try` block — a row with fewer than three
fields raises `IndexError` (modelled as `.error .indexError`).  The `try`
only guards the `strptime` call, so a row whose date field fails to parse
is skipped.  The first row whose parsed date equals `today` is returned;
an exhausted scan yields `.ok none` (the Python `return None`). -/
def get_todays_bible_reading (today : Date) :
    List (List String) → Except PyError (Option BibleReadingScheduleEntry)
  | [] => Except.ok none
  | row :: rest =>
    match row with
    | date_str :: nt_field :: ot_field :: _ =>
      match strptime_mdy date_str with
      | some this_date =>
        if this_date = today then
          Except.ok (some ⟨this_date, ot_field, nt_field⟩)
        else get_todays_bible_reading today rest
      | none => get_todays_bible_reading today rest
    | _ => Except.error PyError.indexError

/-- Model of `get_todays_bible_reading` including the `open(filename)`
call: a missing or unreadable dataset file (`none`) makes `open` raise,
which the function does not catch, so the error propagates to the caller;
otherwise the rows are scanned. -/
def get_todays_bible_reading_from_file (today : Date)
    (file : Option (List (List String))) :
    Except PyError (Option BibleReadingScheduleEntry) :=
  match file with
  | none => Except.error PyError.ioError
  | some rows => get_todays_bible_reading today rows

/-! ### Conversation states and the job queue -/

/-- Conversation state `SET_TIME` (from `SET_TIME, SET_LANGUAGE = range(2)`). -/
def SET_TIME : Int := 0

/-- Conversation state `SET_LANGUAGE`. -/
def SET_LANGUAGE : Int := 1

/-- `ConversationHandler.END` of the bot framework. -/
def END : Int := -1

/-- A job registered with the framework's job queue via `run_daily`.
`removed` records a `schedule_removal` call; `get_jobs_by_name` only
returns jobs that are still scheduled. -/
structure Job where
  name : String
  hour : Int
  minute : Int
  days : List Nat
  chat_id : Int
  removed : Bool
  deriving DecidableEq, Repr

/-- Model of `job_queue.run_daily(callback, t, days, chat_id, name)`:
appends a new scheduled job; an existing job with the same name is not
replaced. -/
def run_daily (jq : List Job) (h m : Int) (days : List Nat)
    (chat_id : Int) (name : String) : List Job :=
  jq ++ [⟨name, h, m, days, chat_id, false⟩]

/-- Model of `job_queue.get_jobs_by_name(name)`: the currently scheduled
(not removed) jobs with that name, in order. -/
def get_jobs_by_name (name : String) (jq : List Job) : List Job :=
  jq.filter (fun j => j.name = name && !j.removed)

/-! ### Time parsing shared by the two reminder-creation handlers -/

/-- Model of `datetime.time(hour, minute)`: `none` is the `ValueError`
raised when the hour is outside `0..23` or the minute outside `0..59`. -/
def datetime_time (h m : Int) : Option (Int × Int) :=
  if 0 ≤ h ∧ h ≤ 23 ∧ 0 ≤ m ∧ m ≤ 59 then some (h, m) else none

/-- The shared `try` block of `activate_bible_study_reminder` and
`specific_set_time`:
`time_parts = time_str.split(':')`, `hour = int(time_parts[0])`,
`minute = int(time_parts[1])`, `t = datetime.time(hour, minute)`,
with only `ValueError` caught (`.ok none` models the caught branch).
The `time_parts[1]` access on a one-element split raises `IndexError`,
which the `except ValueError` clause does not catch. -/
def parse_time_input (time_str : String) : Except PyError (Option (Int × Int)) :=
  match python_split ':' time_str with
  | [] => Except.error PyError.indexError
  | p0 :: rest =>
    match python_int p0 with
    | none => Except.ok none
    | some hour =>
      match rest with
      | [] => Except.error PyError.indexError
      | p1 :: _ =>
        match python_int p1 with
        | none => Except.ok none
        | some minute =>
          match datetime_time hour minute with
          | none => Except.ok none
          | some t => Except.ok (some t)

/-- Zero-padded rendering of a field of `t.strftime("%H:%M")`
(arguments are in range after `datetime_time` validation). -/
def pad2 (n : Int) : String :=
  if n < 10 then "0" ++ toString n else toString n

/-- `t.strftime("%H:%M")` for a `datetime.time` value. -/
def format_time (h m : Int) : String :=
  pad2 h ++ ":" ++ pad2 m

/-- Outcome of the `activate_bible_study_reminder` handler. -/
inductive HandlerOutcome where
  /-- The `/cancel` branch: `cancel_reminder_creation` ran, returning `END`. -/
  | cancelled
  /-- The `except ValueError` branch: the invalid-time reply was sent and
  `SET_TIME` returned. -/
  | invalidTimeReply
  /-- A job was registered; carries the new job queue and the confirmation
  text; `END` returned. -/
  | activated (jq : List Job) (confirmation : String)
  /-- An uncaught Python exception escaped the handler. -/
  | pyErr (e : PyError)
  deriving DecidableEq, Repr

/-- The conversation-state value each outcome returns to the framework
(`none` for an escaped exception, which returns nothing). -/
def HandlerOutcome.nextState : HandlerOutcome → Option Int
  | .cancelled => some END
  | .invalidTimeReply => some SET_TIME
  | .activated _ _ => some END
  | .pyErr _ => none

/-- Model of `activate_bible_study_reminder(update, context)`: the
message handler of the `SET_TIME` state.  `text` is `update.message.text`;
`jq` the current job queue. -/
def activate_bible_study_reminder (chat_id : Int) (text : String)
    (jq : List Job) : HandlerOutcome :=
  if pystrip text = "/cancel" then HandlerOutcome.cancelled
  else
    match parse_time_input (pystrip text) with
    | Except.error e => HandlerOutcome.pyErr e
    | Except.ok none => HandlerOutcome.invalidTimeReply
    | Except.ok (some (h, m)) =>
      HandlerOutcome.activated
        (run_daily jq h m [0, 1, 2, 3, 4, 5, 6] chat_id (toString chat_id))
        ("Activated Bible study reminder daily at " ++ format_time h m ++ " UTC.")

/-- Model of `specific_set_time(update, context)` (the `/sst` command):
`context.args[0]` is read unguarded, so an empty argument list raises
`IndexError`; the rest is the same parse as the conversation handler. -/
def specific_set_time (chat_id : Int) (args : List String)
    (jq : List Job) : HandlerOutcome :=
  match args with
  | [] => HandlerOutcome.pyErr PyError.indexError
  | a0 :: _ =>
    match parse_time_input (pystrip a0) with
    | Except.error e => HandlerOutcome.pyErr e
    | Except.ok none => HandlerOutcome.invalidTimeReply
    | Except.ok (some (h, m)) =>
      HandlerOutcome.activated
        (run_daily jq h m [0, 1, 2, 3, 4, 5, 6] chat_id (toString chat_id))
        ("Activated Bible study reminder daily at " ++ format_time h m ++ " UTC.")

/-! ### `delete_reminder` and `send_all_reminders` -/

/-- Model of `delete_reminder(update, context)`: schedules removal of every
job returned by `get_jobs_by_name(str(chat_id))` and unconditionally sends
the deactivation message.  Returns the updated job queue and the text of
the message sent. -/
def delete_reminder (chat_id : Int) (jq : List Job) : List Job × String :=
  (jq.map (fun j =>
      if j.name = toString chat_id && !j.removed then { j with removed := true }
      else j),
   "Bible study reminder deactivated.")

/-- Model of `send_all_reminders(update, context)` (the `/myreminders`
command): returns the text of the reply. -/
def send_all_reminders (chat_id : Int) (jq : List Job) : String :=
  let jobs := get_jobs_by_name (toString chat_id) jq
  if jobs.isEmpty then
    "You have no active reminders. Create one with /createbiblestudyreminder."
  else
    (jobs.foldl
      (fun message j => message ++ "- Daily at " ++ format_time j.hour j.minute ++ "\n")
      "Your active reminders are:\n")
    ++ "You can delete them with /deletebiblestudyreminder."

/-! ### `set_language` -/

/-- Outcome of the `set_language` handler. -/
inductive SetLangOutcome where
  /-- A recognized label: the preference is stored, a confirmation sent,
  `END` returned. -/
  | set (lang : String) (reply : String)
  /-- Anything else: the two-button choice is presented again and
  `SET_LANGUAGE` returned. -/
  | reprompt (keyboard : List (List String)) (reply : String)
  deriving DecidableEq, Repr

/-- The conversation-state value returned by each `set_language` outcome. -/
def SetLangOutcome.nextState : SetLangOutcome → Int
  | .set _ _ => END
  | .reprompt _ _ => SET_LANGUAGE

/-- Model of `set_language(update, context)`: `text` is
`update.message.text`, compared with `==` (case-sensitively) against the
two labels. -/
def set_language (text : String) : SetLangOutcome :=
  if text = "English" then SetLangOutcome.set "en" "Language set to English"
  else if text = "German" then SetLangOutcome.set "de" "Sprache auf Deutsch gesetzt"
  else SetLangOutcome.reprompt [["English", "German"]] "Please select your language:"

/-- The stored language preference (`context.user_data['language']`) after
`set_language` handles `text`, given the previous preference `ud`
(`none` models a never-set key). -/
def apply_set_language (text : String) (ud : Option String) : Option String :=
  match set_language text with
  | SetLangOutcome.set lang _ => some lang
  | SetLangOutcome.reprompt _ _ => ud

/-! ### `send_reminder`: message text and poll -/

/-- The reminder message text `send_reminder` sends, as a function of
`context.user_data.get('language')` and today's resolved entry.  The
string literals reproduce the triple-quoted f-strings of the source,
including their indentation. -/
def reminder_message (language : Option String)
    (entry : Option BibleReadingScheduleEntry) : String :=
  match entry with
  | some e =>
    if language = some "de" then
      "\n            <b>Dies ist eine Erinnerung, die Bibel zu lesen.</b>\n            \n            AT: "
        ++ e.ot_reading ++ "\n            NT: " ++ e.nt_reading ++ "\n            "
    else
      "\n            <b>This is a reminder to read the Bible.</b>\n            \n            OT: "
        ++ e.ot_reading ++ "\n            NT: " ++ e.nt_reading ++ "\n            "
  | none =>
    if language = some "de" then
      "\n                Dies ist eine Erinnerung, die Bibel zu lesen.\n            "
    else
      "\n                This is a reminder to read the Bible.\n            "

/-- A Telegram poll as sent by `send_poll`. -/
structure Poll where
  question : String
  options : List String
  is_anonymous : Bool
  deriving DecidableEq, Repr

/-- The poll `send_reminder` appends after the message. -/
def reminder_poll (language : Option String) : Poll :=
  if language = some "de" then
    ⟨"Hast du heute schon die Bibel gelesen?", ["Ja", "Nein"], false⟩
  else
    ⟨"Have you read the Bible today?", ["Yes", "No"], false⟩

/-- Model of `send_reminder(context, chat_id)`: the message text and the
poll sent to the chat, for a given stored language preference and today's
resolved schedule entry. -/
def send_reminder (language : Option String)
    (entry : Option BibleReadingScheduleEntry) : String × Poll :=
  (reminder_message language entry, reminder_poll language)

/-! ### Substring-occurrence utilities (used to state ordering facts
about composed message texts) -/

/-- Index of the first occurrence of `pat` in `l`, if any. -/
def findSub (l pat : List Char) : Option Nat :=
  match l with
  | [] => if pat.isEmpty then some 0 else none
  | _ :: rest =>
    if pat.isPrefixOf l then some 0
    else (findSub rest pat).map (· + 1)

/-- Whether `pat` occurs as a substring of `s`. -/
def occursIn (pat s : String) : Bool :=
  (findSub s.data pat.data).isSome

/-- Whether the first occurrence of `a` in `s` is strictly before the
first occurrence of `b` (both must occur). -/
def occursBefore (a b s : String) : Bool :=
  match findSub s.data a.data, findSub s.data b.data with
  | some i, some j => i < j
  | _, _ => false

/-! ## Theorems -/

/-- A row of at least three fields whose date field does not parse to the
target date is passed over by the scan. -/
theorem scan_skips_row (today : Date) (a b c : String) (extra : List String)
    (rest : List (List String))
    (hne : strptime_mdy a ≠ some today) :
    get_todays_bible_reading today ((a :: b :: c :: extra) :: rest) =
      get_todays_bible_reading today rest := by
  cases heq : strptime_mdy a with
  | none => simp [get_todays_bible_reading, heq]
  | some d =>
    have hd : ¬d = today := fun h => hne (h ▸ heq)
    simp [get_todays_bible_reading, heq, hd]

/-- Claim C1: for a dataset whose rows before the match have at least
three fields and a date field that does not parse to the target date,
`get_todays_bible_reading` returns the first matching row as an entry
whose `ot_reading` is the row's third field and whose `nt_reading` is the
row's second field; the scan stops there, so any later row (including a
duplicate of the same date) is ignored. -/
theorem get_todays_bible_reading_first_match (today : Date)
    (pre post : List (List String))
    (date_str nt_field ot_field : String) (extra : List String)
    (hpre : ∀ r ∈ pre, 3 ≤ r.length ∧ strptime_mdy (r.getD 0 "") ≠ some today)
    (hd : strptime_mdy date_str = some today) :
    get_todays_bible_reading today
        (pre ++ (date_str :: nt_field :: ot_field :: extra) :: post) =
      Except.ok (some ⟨today, ot_field, nt_field⟩) := by
  induction pre with
  | nil => simp [get_todays_bible_reading, hd]
  | cons r pre ih =>
    obtain ⟨hlen, hne⟩ := hpre r (by simp)
    rcases r with _ | ⟨a, _ | ⟨b, _ | ⟨c, t⟩⟩⟩
    · simp at hlen
    · simp at hlen
    · simp at hlen
    · rw [List.cons_append, scan_skips_row today a b c t _ (by simpa using hne)]
      exact ih (fun r hr => hpre r (by simp [hr]))

/-- Witness for claim C1: a dataset with a header row, a non-matching
row, the matching row and a duplicate-date row; the first match is
returned with the third field as `ot_reading` and the second as
`nt_reading`. -/
theorem get_todays_bible_reading_first_match_witness :
    (∀ r ∈ [["date", "New Testament", "Old Testament"],
            ["01-01-22", "Matthew 1", "Genesis 1"]],
        3 ≤ r.length ∧ strptime_mdy (r.getD 0 "") ≠ some ⟨2022, 1, 2⟩) ∧
    strptime_mdy "01-02-22" = some ⟨2022, 1, 2⟩ ∧
    get_todays_bible_reading ⟨2022, 1, 2⟩
        [["date", "New Testament", "Old Testament"],
         ["01-01-22", "Matthew 1", "Genesis 1"],
         ["01-02-22", "Matthew 2", "Genesis 2"],
         ["01-02-22", "Mark 9", "Exodus 5"]] =
      Except.ok (some ⟨⟨2022, 1, 2⟩, "Genesis 2", "Matthew 2"⟩) :=
  ⟨by decide, by decide,
    get_todays_bible_reading_first_match ⟨2022, 1, 2⟩
      [["date", "New Testament", "Old Testament"],
       ["01-01-22", "Matthew 1", "Genesis 1"]]
      [["01-02-22", "Mark 9", "Exodus 5"]]
      "01-02-22" "Matthew 2" "Genesis 2" [] (by decide) (by decide)⟩

/-- Claim C2 counterexample: a malformed row with fewer than three fields
makes `get_todays_bible_reading` abort with an uncaught `IndexError`
(the field accesses `row[2]`/`row[1]` sit outside the `try` block), so it
is not true that no malformed row ever causes the scan to abort. -/
theorem malformed_short_row_aborts :
    get_todays_bible_reading ⟨2022, 1, 1⟩ [["01-01-22", "Matthew 1"]] =
      Except.error PyError.indexError := rfl

/-- Claim C2 (amended): a row with at least three fields whose date field
fails to parse is silently skipped — the scan continues on the remaining
rows unchanged, so such a row never matches any date and never aborts the
scan.  (Rows with fewer than three fields do abort the scan.) -/
theorem unparsable_row_skipped (today : Date) (date_str f1 f2 : String)
    (extra : List String) (rest : List (List String))
    (hfail : strptime_mdy date_str = none) :
    get_todays_bible_reading today ((date_str :: f1 :: f2 :: extra) :: rest) =
      get_todays_bible_reading today rest := by
  simp [get_todays_bible_reading, hfail]

/-- Witness for amended claim C2: a header row is skipped, leaving the
scan of the empty remainder. -/
theorem unparsable_row_skipped_witness :
    strptime_mdy "date" = none ∧
    get_todays_bible_reading ⟨2022, 1, 1⟩
        [["date", "New Testament", "Old Testament"]] =
      get_todays_bible_reading ⟨2022, 1, 1⟩ [] :=
  ⟨by decide,
    unparsable_row_skipped ⟨2022, 1, 1⟩ "date" "New Testament" "Old Testament"
      [] [] (by decide)⟩

/-- Claim C6: for a dataset whose rows all have at least three fields
(the format of the schedule file, header included) and a target date that
no row's date field parses to, the scan traverses the whole dataset and
returns the not-found result `none` — no exception. -/
theorem absent_date_returns_none (today : Date) (rows : List (List String))
    (hlen : ∀ r ∈ rows, 3 ≤ r.length)
    (habs : ∀ r ∈ rows, strptime_mdy (r.getD 0 "") ≠ some today) :
    get_todays_bible_reading today rows = Except.ok none := by
  induction rows with
  | nil => rfl
  | cons r rest ih =>
    have hl := hlen r (by simp)
    rcases r with _ | ⟨a, _ | ⟨b, _ | ⟨c, t⟩⟩⟩
    · simp at hl
    · simp at hl
    · simp at hl
    · rw [scan_skips_row today a b c t rest
        (by simpa using habs (a :: b :: c :: t) (by simp))]
      exact ih (fun r hr => hlen r (by simp [hr])) (fun r hr => habs r (by simp [hr]))

/-- Witness for claim C6: a concrete dataset with a header and two
entries, scanned for an absent date, yields `none`. -/
theorem absent_date_returns_none_witness :
    (∀ r ∈ [["date", "New Testament", "Old Testament"],
            ["01-01-22", "Matthew 1", "Genesis 1"],
            ["01-02-22", "Matthew 2", "Genesis 2"]],
        3 ≤ r.length ∧ strptime_mdy (r.getD 0 "") ≠ some ⟨2023, 5, 5⟩) ∧
    get_todays_bible_reading ⟨2023, 5, 5⟩
        [["date", "New Testament", "Old Testament"],
         ["01-01-22", "Matthew 1", "Genesis 1"],
         ["01-02-22", "Matthew 2", "Genesis 2"]] = Except.ok none :=
  ⟨by decide,
    absent_date_returns_none ⟨2023, 5, 5⟩
      [["date", "New Testament", "Old Testament"],
       ["01-01-22", "Matthew 1", "Genesis 1"],
       ["01-02-22", "Matthew 2", "Genesis 2"]]
      (fun r hr => by fin_cases hr <;> decide)
      (fun r hr => by fin_cases hr <;> decide)⟩

/-- Claim C7: a missing or unreadable dataset file makes the lookup
propagate the read error to the caller — it is never converted into a
not-found result — whereas a dataset whose rows are merely malformed in
the date field (e.g. a lone header row) is tolerated and yields the
ordinary not-found result. -/
theorem missing_file_error_propagates (today : Date) :
    get_todays_bible_reading_from_file today none = Except.error PyError.ioError ∧
    (∀ x, get_todays_bible_reading_from_file today none ≠ Except.ok x) ∧
    get_todays_bible_reading_from_file today
        (some [["date", "New Testament", "Old Testament"]]) = Except.ok none := by
  refine ⟨rfl, fun x h => by simp [get_todays_bible_reading_from_file] at h, ?_⟩
  have hdate : strptime_mdy "date" = none := by decide
  simp [get_todays_bible_reading_from_file, get_todays_bible_reading, hdate]

/-- A successfully parsed time input is within the `datetime.time` ranges:
hour `0..23`, minute `0..59`. -/
theorem parse_time_input_range (s : String) (h m : Int)
    (hp : parse_time_input s = Except.ok (some (h, m))) :
    0 ≤ h ∧ h ≤ 23 ∧ 0 ≤ m ∧ m ≤ 59 := by
  unfold parse_time_input at hp
  rcases hps : python_split ':' s with _ | ⟨p0, rest⟩ <;> simp only [hps] at hp
  · exact absurd hp (by simp)
  rcases hi0 : python_int p0 with _ | hour <;> simp only [hi0] at hp
  · exact absurd hp (by simp)
  rcases rest with _ | ⟨p1, rest2⟩
  · exact absurd hp (by simp)
  rcases hi1 : python_int p1 with _ | minute <;> simp only [hi1] at hp
  · exact absurd hp (by simp)
  unfold datetime_time at hp
  split at hp
  · exact absurd hp (by simp)
  · rename_i t heq
    have ht : t = (h, m) := by simpa using hp
    subst ht
    split at heq
    · rename_i hcond
      obtain ⟨rfl, rfl⟩ : hour = h ∧ minute = m := by simpa using heq
      exact hcond
    · exact absurd heq (by simp)

/-- Claim C3 counterexample: the message `"8"` fails to parse as two
integers forming a valid time, yet the handler does not take the
validation-failure branch — the unguarded `time_parts[1]` access raises
an `IndexError` that the `except ValueError` clause does not catch. -/
theorem activate_no_colon_integer_escapes :
    activate_bible_study_reminder 1 "8" [] =
      HandlerOutcome.pyErr PyError.indexError ∧
    activate_bible_study_reminder 1 "8" [] ≠ HandlerOutcome.invalidTimeReply := by
  decide

/-- Claim C3 (amended): in the Set-Reminder-Time flow, a message whose
stripped text splits on `:` and converts to a valid time (hour `0..23`,
minute `0..59`) registers a daily job on all seven weekdays with
`name = str(chat_id)` and ends the conversation; `"08:00"` parses to
`(8, 0)`; the messages `"25:00"`, `"08:61"` and `"abc"` each take the
validation-failure branch, replying with the error text and returning
`SET_TIME`.  (A message without `:` whose whole text is an integer
instead escapes with an uncaught `IndexError`.) -/
theorem activate_bible_study_reminder_spec (chat_id : Int) (jq : List Job)
    (text : String) (h m : Int)
    (hcancel : pystrip text ≠ "/cancel")
    (hparse : parse_time_input (pystrip text) = Except.ok (some (h, m))) :
    activate_bible_study_reminder chat_id text jq =
      HandlerOutcome.activated
        (jq ++ [⟨toString chat_id, h, m, [0, 1, 2, 3, 4, 5, 6], chat_id, false⟩])
        ("Activated Bible study reminder daily at " ++ format_time h m ++ " UTC.") ∧
    (activate_bible_study_reminder chat_id text jq).nextState = some END ∧
    (0 ≤ h ∧ h ≤ 23 ∧ 0 ≤ m ∧ m ≤ 59) ∧
    parse_time_input "08:00" = Except.ok (some (8, 0)) ∧
    activate_bible_study_reminder chat_id "25:00" jq = HandlerOutcome.invalidTimeReply ∧
    activate_bible_study_reminder chat_id "08:61" jq = HandlerOutcome.invalidTimeReply ∧
    activate_bible_study_reminder chat_id "abc" jq = HandlerOutcome.invalidTimeReply ∧
    HandlerOutcome.invalidTimeReply.nextState = some SET_TIME := by
  have hact : activate_bible_study_reminder chat_id text jq =
      HandlerOutcome.activated
        (jq ++ [⟨toString chat_id, h, m, [0, 1, 2, 3, 4, 5, 6], chat_id, false⟩])
        ("Activated Bible study reminder daily at " ++ format_time h m ++ " UTC.") := by
    simp [activate_bible_study_reminder, hcancel, hparse, run_daily]
  have h25 : parse_time_input (pystrip "25:00") = Except.ok none := rfl
  have h61 : parse_time_input (pystrip "08:61") = Except.ok none := rfl
  have habc : parse_time_input (pystrip "abc") = Except.ok none := rfl
  refine ⟨hact, by rw [hact]; rfl, parse_time_input_range _ h m hparse, rfl,
    ?_, ?_, ?_, rfl⟩
  · simp [activate_bible_study_reminder, h25, show pystrip "25:00" ≠ "/cancel" by decide]
  · simp [activate_bible_study_reminder, h61, show pystrip "08:61" ≠ "/cancel" by decide]
  · simp [activate_bible_study_reminder, habc, show pystrip "abc" ≠ "/cancel" by decide]

/-- Witness for amended claim C3: the message `"08:00"` in chat `42`
registers the daily job at `08:00` named `"42"` and the handler returns
`END`; `"25:00"` takes the validation-failure branch. -/
theorem activate_bible_study_reminder_spec_witness :
    pystrip "08:00" ≠ "/cancel" ∧
    parse_time_input (pystrip "08:00") = Except.ok (some (8, 0)) ∧
    activate_bible_study_reminder 42 "08:00" [] =
      HandlerOutcome.activated
        [⟨toString (42 : Int), 8, 0, [0, 1, 2, 3, 4, 5, 6], 42, false⟩]
        ("Activated Bible study reminder daily at " ++ format_time 8 0 ++ " UTC.") ∧
    activate_bible_study_reminder 42 "25:00" [] = HandlerOutcome.invalidTimeReply :=
  ⟨by decide, rfl,
    (activate_bible_study_reminder_spec 42 [] "08:00" 8 0 (by decide) rfl).1,
    (activate_bible_study_reminder_spec 42 [] "08:00" 8 0 (by decide) rfl).2.2.2.2.1⟩

/-- Claim C10: the reminder-creation paths catch only `ValueError`, so a
failing field access escapes the handler as an uncaught `IndexError`
instead of producing the validation reply: `/sst` with an empty argument
list fails at the unguarded `context.args[0]`, and a conversation message
with no `:` whose whole text is an integer fails at the unguarded access
to the second split component. -/
theorem value_error_only_catch_escapes (chat_id : Int) (jq : List Job)
    (text : String) (n : Int)
    (hsplit : python_split ':' (pystrip text) = [pystrip text])
    (hint : python_int (pystrip text) = some n) :
    specific_set_time chat_id [] jq = HandlerOutcome.pyErr PyError.indexError ∧
    activate_bible_study_reminder chat_id text jq =
      HandlerOutcome.pyErr PyError.indexError ∧
    activate_bible_study_reminder chat_id text jq ≠ HandlerOutcome.invalidTimeReply := by
  have hcancel : pystrip text ≠ "/cancel" := by
    intro heq
    rw [heq, show python_int "/cancel" = none from rfl] at hint
    exact Option.noConfusion hint
  have hparse : parse_time_input (pystrip text) = Except.error PyError.indexError := by
    unfold parse_time_input
    rw [hsplit]
    simp [hint]
  refine ⟨rfl, ?_, ?_⟩ <;> simp [activate_bible_study_reminder, hcancel, hparse]

/-- Witness for claim C10: `/sst` with no argument and the conversation
message `"8"` both escape with `IndexError`. -/
theorem value_error_only_catch_escapes_witness :
    python_split ':' (pystrip "8") = [pystrip "8"] ∧
    python_int (pystrip "8") = some 8 ∧
    specific_set_time 7 [] [] = HandlerOutcome.pyErr PyError.indexError ∧
    activate_bible_study_reminder 7 "8" [] =
      HandlerOutcome.pyErr PyError.indexError :=
  ⟨by decide, by decide,
    (value_error_only_catch_escapes 7 [] "8" 8 (by decide) (by decide)).1,
    (value_error_only_catch_escapes 7 [] "8" 8 (by decide) (by decide)).2.1⟩

/-- After `delete_reminder`, no active job with the chat's name remains in
the queue. -/
theorem delete_reminder_clears (chat_id : Int) (jq : List Job) :
    get_jobs_by_name (toString chat_id) ((delete_reminder chat_id jq).1) = [] := by
  induction jq with
  | nil => rfl
  | cons j rest ih =>
    simp only [delete_reminder, List.map_cons, get_jobs_by_name,
      List.filter_cons] at ih ⊢
    by_cases h1 : j.name = toString chat_id
    · by_cases h2 : j.removed
      · simpa [h1, h2] using ih
      · simpa [h1, h2] using ih
    · simpa [h1] using ih

/-- `delete_reminder` leaves the queue unchanged when the chat has no
active jobs. -/
theorem delete_reminder_noop (chat_id : Int) (jq : List Job)
    (hempty : get_jobs_by_name (toString chat_id) jq = []) :
    (delete_reminder chat_id jq).1 = jq := by
  induction jq with
  | nil => rfl
  | cons j rest ih =>
    simp only [get_jobs_by_name, List.filter_cons] at hempty
    by_cases hj : (decide (j.name = toString chat_id) && !j.removed) = true
    · rw [if_pos hj] at hempty
      exact absurd hempty (by simp)
    · rw [if_neg hj] at hempty
      have htail := ih (by simpa [get_jobs_by_name] using hempty)
      simp only [delete_reminder, List.map_cons] at htail ⊢
      rw [if_neg hj, htail]

/-- Claim C4 counterexample: deleting reminders for a chat with zero
active jobs sends the unconditional message
`"Bible study reminder deactivated."`, which does not report
"no active reminders". -/
theorem delete_zero_jobs_message :
    (delete_reminder 42 []).2 = "Bible study reminder deactivated." ∧
    occursIn "no active reminders" (delete_reminder 42 []).2 = false ∧
    (delete_reminder 42 []).1 = [] := by
  decide

/-- Claim C4 (amended): deleting reminders for a chat with zero active
jobs is a no-op on the job queue but reports the same
`"Bible study reminder deactivated."` message as the success case (not a
distinct "no active reminders" report); deleting for a chat with active
jobs cancels all of them, after which the list-reminders command reports
that there are no active reminders. -/
theorem delete_reminder_spec (chat_id : Int) (jq : List Job) :
    (get_jobs_by_name (toString chat_id) jq = [] →
      delete_reminder chat_id jq = (jq, "Bible study reminder deactivated.")) ∧
    (delete_reminder chat_id jq).2 = "Bible study reminder deactivated." ∧
    get_jobs_by_name (toString chat_id) ((delete_reminder chat_id jq).1) = [] ∧
    send_all_reminders chat_id ((delete_reminder chat_id jq).1) =
      "You have no active reminders. Create one with /createbiblestudyreminder." := by
  refine ⟨fun h => ?_, rfl, delete_reminder_clears chat_id jq, ?_⟩
  · have h1 := delete_reminder_noop chat_id jq h
    have h2 : (delete_reminder chat_id jq).2 = "Bible study reminder deactivated." := rfl
    calc delete_reminder chat_id jq
        = ((delete_reminder chat_id jq).1, (delete_reminder chat_id jq).2) := rfl
      _ = (jq, "Bible study reminder deactivated.") := by rw [h1, h2]
  · simp [send_all_reminders, delete_reminder_clears chat_id jq]

/-- Witness for amended claim C4: deleting with an empty queue is a no-op
with the deactivation message; deleting with two active jobs named `"42"`
cancels both and a subsequent list reports no active reminders. -/
theorem delete_reminder_spec_witness :
    get_jobs_by_name (toString (42 : Int)) [] = [] ∧
    delete_reminder 42 [] = ([], "Bible study reminder deactivated.") ∧
    get_jobs_by_name (toString (42 : Int))
        ((delete_reminder 42
          [⟨"42", 8, 0, [0, 1, 2, 3, 4, 5, 6], 42, false⟩,
           ⟨"42", 9, 30, [0, 1, 2, 3, 4, 5, 6], 42, false⟩]).1) = [] ∧
    send_all_reminders 42
        ((delete_reminder 42
          [⟨"42", 8, 0, [0, 1, 2, 3, 4, 5, 6], 42, false⟩,
           ⟨"42", 9, 30, [0, 1, 2, 3, 4, 5, 6], 42, false⟩]).1) =
      "You have no active reminders. Create one with /createbiblestudyreminder." :=
  ⟨rfl, (delete_reminder_spec 42 []).1 rfl,
    (delete_reminder_spec 42
      [⟨"42", 8, 0, [0, 1, 2, 3, 4, 5, 6], 42, false⟩,
       ⟨"42", 9, 30, [0, 1, 2, 3, 4, 5, 6], 42, false⟩]).2.2.1,
    (delete_reminder_spec 42
      [⟨"42", 8, 0, [0, 1, 2, 3, 4, 5, 6], 42, false⟩,
       ⟨"42", 9, 30, [0, 1, 2, 3, 4, 5, 6], 42, false⟩]).2.2.2⟩

/-- Claim C5 counterexample: with the sample entry whose
`ot_reading = "XOTX"` and `nt_reading = "YNTY"`, the `ot` field is
displayed before the `nt` field in the German rendering *and* in the
English rendering, and never the other way round — the display order of
the two fields is identical in the two languages, not different. -/
theorem reminder_message_order_same :
    occursBefore "XOTX" "YNTY"
        (reminder_message (some "de") (some ⟨⟨2022, 1, 1⟩, "XOTX", "YNTY"⟩)) = true ∧
    occursBefore "XOTX" "YNTY"
        (reminder_message (some "en") (some ⟨⟨2022, 1, 1⟩, "XOTX", "YNTY"⟩)) = true ∧
    occursBefore "YNTY" "XOTX"
        (reminder_message (some "de") (some ⟨⟨2022, 1, 1⟩, "XOTX", "YNTY"⟩)) = false ∧
    occursBefore "YNTY" "XOTX"
        (reminder_message (some "en") (some ⟨⟨2022, 1, 1⟩, "XOTX", "YNTY"⟩)) = false := by
  decide

/-- Claim C5 (amended): when an entry is found, the composed HTML
reminder names both readings, with labels `OT`/`NT` in English and
`AT`/`NT` in German; in both languages the `ot_reading` field is rendered
first (under the `OT`/`AT` label) and the `nt_reading` field second
(under the `NT` label) — the display order is the same. -/
theorem reminder_message_labels (e : BibleReadingScheduleEntry) :
    reminder_message (some "de") (some e) =
      "\n            <b>Dies ist eine Erinnerung, die Bibel zu lesen.</b>\n            \n            "
        ++ "AT: " ++ e.ot_reading ++ "\n            NT: " ++ e.nt_reading
        ++ "\n            " ∧
    reminder_message (some "en") (some e) =
      "\n            <b>This is a reminder to read the Bible.</b>\n            \n            "
        ++ "OT: " ++ e.ot_reading ++ "\n            NT: " ++ e.nt_reading
        ++ "\n            " ∧
    occursBefore "OTMARKER" "NTMARKER"
        (reminder_message (some "de") (some ⟨⟨2024, 6, 1⟩, "OTMARKER", "NTMARKER"⟩)) = true ∧
    occursBefore "OTMARKER" "NTMARKER"
        (reminder_message (some "en") (some ⟨⟨2024, 6, 1⟩, "OTMARKER", "NTMARKER"⟩)) = true :=
  ⟨rfl, rfl, by decide, by decide⟩

/-- Claim C8: in the Set-Language flow, exactly `"English"` stores `en`
and ends the conversation, exactly `"German"` stores `de` and ends the
conversation, and any other message leaves the stored preference
unchanged, re-presents the two-button choice and stays in
`SET_LANGUAGE`. -/
theorem set_language_spec (text : String) (ud : Option String)
    (h1 : text ≠ "English") (h2 : text ≠ "German") :
    set_language "English" = SetLangOutcome.set "en" "Language set to English" ∧
    (set_language "English").nextState = END ∧
    apply_set_language "English" ud = some "en" ∧
    set_language "German" = SetLangOutcome.set "de" "Sprache auf Deutsch gesetzt" ∧
    (set_language "German").nextState = END ∧
    apply_set_language "German" ud = some "de" ∧
    set_language text =
      SetLangOutcome.reprompt [["English", "German"]] "Please select your language:" ∧
    (set_language text).nextState = SET_LANGUAGE ∧
    apply_set_language text ud = ud := by
  have hre : set_language text =
      SetLangOutcome.reprompt [["English", "German"]] "Please select your language:" := by
    simp [set_language, h1, h2]
  refine ⟨rfl, rfl, rfl, rfl, rfl, rfl, hre, by rw [hre]; rfl, ?_⟩
  unfold apply_set_language
  rw [hre]

/-- Witness for claim C8: the lowercase `"english"` matches neither label
case-sensitively, so the preference stays unchanged and the two-button
choice is re-presented, while `"English"` stores `en`. -/
theorem set_language_spec_witness :
    ("english" ≠ "English" ∧ "english" ≠ "German") ∧
    set_language "english" =
      SetLangOutcome.reprompt [["English", "German"]] "Please select your language:" ∧
    apply_set_language "english" none = none ∧
    apply_set_language "English" none = some "en" :=
  ⟨⟨by decide, by decide⟩,
    (set_language_spec "english" none (by decide) (by decide)).2.2.2.2.2.2.1,
    (set_language_spec "english" none (by decide) (by decide)).2.2.2.2.2.2.2.2,
    (set_language_spec "english" none (by decide) (by decide)).2.2.1⟩

/-- Claim C9: any stored preference other than `de` (including the unset
default) yields the English reminder with labels `OT`/`NT` and the
English poll; after the language flow stores `de` (e.g. via the
`"German"` label), the reminder is German with labels `AT`/`NT` and the
poll is German. -/
theorem send_reminder_language_default (ud : Option String)
    (e : BibleReadingScheduleEntry) (hne : ud ≠ some "de") :
    (send_reminder ud (some e)).1 =
      "\n            <b>This is a reminder to read the Bible.</b>\n            \n            "
        ++ "OT: " ++ e.ot_reading ++ "\n            NT: " ++ e.nt_reading
        ++ "\n            " ∧
    (send_reminder ud (some e)).2 =
      ⟨"Have you read the Bible today?", ["Yes", "No"], false⟩ ∧
    apply_set_language "German" ud = some "de" ∧
    (send_reminder (apply_set_language "German" ud) (some e)).1 =
      "\n            <b>Dies ist eine Erinnerung, die Bibel zu lesen.</b>\n            \n            "
        ++ "AT: " ++ e.ot_reading ++ "\n            NT: " ++ e.nt_reading
        ++ "\n            " ∧
    (send_reminder (apply_set_language "German" ud) (some e)).2 =
      ⟨"Hast du heute schon die Bibel gelesen?", ["Ja", "Nein"], false⟩ := by
  refine ⟨?_, ?_, rfl, rfl, rfl⟩
  · show reminder_message ud (some e) = _
    simp only [reminder_message]
    rw [if_neg hne]
    rfl
  · show reminder_poll ud = _
    unfold reminder_poll
    rw [if_neg hne]

/-- Witness for claim C9: with the preference never set (`none`), the
English message and poll are produced; after storing `de` the German pair
is produced. -/
theorem send_reminder_language_default_witness :
    (none : Option String) ≠ some "de" ∧
    (send_reminder none (some ⟨⟨2022, 1, 1⟩, "Genesis 1", "Matthew 1"⟩)).2 =
      ⟨"Have you read the Bible today?", ["Yes", "No"], false⟩ ∧
    (send_reminder (apply_set_language "German" none)
        (some ⟨⟨2022, 1, 1⟩, "Genesis 1", "Matthew 1"⟩)).2 =
      ⟨"Hast du heute schon die Bibel gelesen?", ["Ja", "Nein"], false⟩ :=
  ⟨by decide,
    (send_reminder_language_default none ⟨⟨2022, 1, 1⟩, "Genesis 1", "Matthew 1"⟩
      (by decide)).2.1,
    (send_reminder_language_default none ⟨⟨2022, 1, 1⟩, "Genesis 1", "Matthew 1"⟩
      (by decide)).2.2.2.2⟩

end BibleBot
